import Mathlib

/-!
Verification of `mlflow/data/artifact_dataset_sources.py`: the engine that derives
dataset-source descriptors from registered artifact repositories, registers them into
the dataset-source resolution table, and the per-descriptor capability methods
(`_can_resolve`, `_resolve`, `_to_dict`, `_from_dict`).

The embedding follows the Python source line by line. External collaborators that are
not part of the repository source (`urllib.parse.urlparse`, `mlflow.utils.uri.is_local_uri`,
`mlflow.data.dataset_source_registry.register_dataset_source`) are modelled explicitly;
their doc comments say what they model and from where.
-/

/-- Python values that can appear as a `raw_source` argument in this code: strings,
`pathlib.Path` objects (carried as their string form), `None`, and integers as a
representative non-string, non-path object. `str(raw_source)` is total on these. -/
inductive PyObj where
  | pstr (s : String)
  | ppath (s : String)
  | pnone
  | pint (n : Int)
  deriving DecidableEq, Repr

/-- Python `str(obj)`. For a `pathlib.Path` this is its path string. -/
def pyStr : PyObj → String
  | .pstr s => s
  | .ppath s => s
  | .pnone => "None"
  | .pint n => toString n

/-- Python `isinstance(raw_source, str)`. -/
def PyObj.isStr : PyObj → Bool
  | .pstr _ => true
  | _ => false

/-- Python `isinstance(raw_source, Path)`. -/
def PyObj.isPath : PyObj → Bool
  | .ppath _ => true
  | _ => false

/-- The components of a parsed URL that this code consumes: `scheme` and `netloc`. -/
structure UrlParts where
  scheme : String
  netloc : String
  deriving DecidableEq, Repr

/-- Characters allowed in a URL scheme after the initial letter
(letters, digits, `+`, `-`, `.`), as in `urllib.parse`. -/
def schemeChar (c : Char) : Bool :=
  c.isAlphanum || c == '+' || c == '-' || c == '.'

/-- Models `urllib.parse.urlparse` (an external URI-parsing primitive, out of scope for
the repository): the text before the first `:` is the scheme when it is nonempty, starts
with a letter and consists of scheme characters, and is returned lowercased; otherwise the
scheme is empty. The netloc is the run after a leading `//` up to the next `/`, `?` or `#`.
Like the Python function, parsing raises `ValueError ("Invalid IPv6 URL")` when the netloc
contains an unmatched `[` or `]`. -/
def pyUrlparse (s : String) : Except String UrlParts :=
  let cs := s.toList
  let colonSplit : List Char × List Char :=
    if cs.contains ':' then
      let pre := cs.takeWhile (fun c => c != ':')
      if pre.length > 0 && (match pre with | c :: _ => c.isAlpha | [] => false)
          && pre.all schemeChar then
        (pre.map Char.toLower, cs.drop (pre.length + 1))
      else
        ([], cs)
    else ([], cs)
  let netloc : List Char :=
    match colonSplit.2 with
    | '/' :: '/' :: r => r.takeWhile (fun c => !(c == '/' || c == '?' || c == '#'))
    | _ => []
  if (netloc.contains '[' && !netloc.contains ']')
      || (netloc.contains ']' && !netloc.contains '[') then
    Except.error "Invalid IPv6 URL"
  else
    Except.ok ⟨colonSplit.1.asString, netloc.asString⟩

/-- Modelled from the spec: `mlflow.utils.uri.is_local_uri` is an external collaborator
(not under the repository source). The spec describes the local `identify` test as a
"looks like a local/tracking-adjacent URI with no network scheme" test that "must not be
itself a tracking-store or registry URI", with "any parsing failure → reject". We model
it as: parse the input as a URI (a parse failure propagates to the caller, which catches
it), and accept exactly when the parsed scheme is empty or `file` — every network,
tracking-store or registry scheme (`http`, `https`, `runs`, `models`, `databricks`, ...)
fails the test. The second argument mirrors the Python keyword
`is_tracking_or_registry_uri`, which the call site always passes as `False`. -/
def is_local_uri (uri : String) (is_tracking_or_registry_uri : Bool) :
    Except String Bool := do
  let p ← pyUrlparse uri
  return (p.scheme == "" || p.scheme == "file")

/-- Evaluate a fallible boolean computation the way an enclosing
`try: return ...  except Exception: return False` does. -/
def catchFalse (x : Except String Bool) : Bool :=
  match x with
  | .ok b => b
  | .error _ => false

/-- The character list of the token `"ArtifactRepository"` that the name derivation
looks for in `artifact_repo.__name__`. -/
def arTok : List Char := "ArtifactRepository".toList

/-- The character list of the replacement token `"ArtifactDatasetSource"`. -/
def adsTok : List Char := "ArtifactDatasetSource".toList

/-- Worker for Python `name.replace("ArtifactRepository", "ArtifactDatasetSource")`:
left-to-right, non-overlapping replacement of every occurrence. The second argument is
the number of characters still to be copied out of an occurrence already replaced, which
makes the recursion structural in the character list. -/
def replTokAux : List Char → Nat → List Char
  | [], _ => []
  | _ :: cs, n + 1 => replTokAux cs n
  | c :: cs, 0 =>
    if arTok.isPrefixOf (c :: cs) then adsTok ++ replTokAux cs (arTok.length - 1)
    else c :: replTokAux cs 0

/-- Python `name.replace("ArtifactRepository", "ArtifactDatasetSource")` on the
character list of `name`. -/
def replTok (cs : List Char) : List Char := replTokAux cs 0

/-- Python `"ArtifactRepository" in name` (substring containment) on the character
list of `name`. -/
def tokOccursIn : List Char → Bool
  | [] => false
  | c :: cs => arTok.isPrefixOf (c :: cs) || tokOccursIn cs

/-- Python `re.split(r"[-_]", scheme)`: split at every `-` or `_`, keeping empty
segments, with `[""]` for the empty string. -/
def splitSeps : List Char → List (List Char)
  | [] => [[]]
  | c :: cs =>
    if c == '-' || c == '_' then [] :: splitSeps cs
    else
      match splitSeps cs with
      | [] => [[c]]
      | p :: ps => (c :: p) :: ps

/-- Python `part.capitalize()`: first character uppercased, the rest lowercased. -/
def capPart : List Char → List Char
  | [] => []
  | c :: cs => c.toUpper :: cs.map Char.toLower

/-- The `camelcase_scheme` helper of `register_artifact_dataset_sources`:
`"".join([part.capitalize() for part in re.split(r"[-_]", scheme)])`. -/
def camelcaseScheme (scheme : String) : String :=
  (((splitSeps scheme.toList).map capPart).foldr (· ++ ·) []).asString

/-- The name derivation of `register_artifact_dataset_sources` (lines 38-56): if
`"ArtifactRepository" in artifact_repo.__name__`, replace that token with
`"ArtifactDatasetSource"`; otherwise camelcase the scheme and append
`"ArtifactDatasetSource"`. -/
def datasetSourceName (scheme repoName : String) : String :=
  if tokOccursIn repoName.toList then (replTok repoName.toList).asString
  else camelcaseScheme scheme ++ "ArtifactDatasetSource"

/-- The data of one generated `ArtifactRepoSource` class: the captured `scheme` closure
variable, the computed `source_type`, the class name (`__name__`, set to
`dataset_source_name`), and the class docstring. -/
structure ArtifactRepoSourceClass where
  scheme : String
  sourceType : String
  name : String
  docstring : String
  deriving DecidableEq, Repr

/-- The class docstring assigned when `scheme in {"", "file"}`. -/
def localDocstring : String :=
  "Represents the source of a dataset stored on the local filesystem."

/-- The class docstring assigned for any other scheme. -/
def remoteDocstring (scheme : String) : String :=
  "Represents a filesystem-based or blob-storage-based dataset source identified by a"
    ++ " URI with scheme '" ++ scheme ++ "'."

/-- `_create_dataset_source_for_artifact_repo(scheme, dataset_source_name)` (lines
71-169): `source_type` is `"local"` when `scheme in {"", "file"}` and the scheme itself
otherwise; the generated class is returned with its name rebound to
`dataset_source_name`. -/
def _create_dataset_source_for_artifact_repo (scheme dataset_source_name : String) :
    ArtifactRepoSourceClass :=
  if scheme == "" || scheme == "file" then
    ⟨scheme, "local", dataset_source_name, localDocstring⟩
  else
    ⟨scheme, scheme, dataset_source_name, remoteDocstring scheme⟩

/-- `ArtifactRepoSource._get_source_type()`: returns the captured `source_type`. -/
def _get_source_type (cls : ArtifactRepoSourceClass) : String := cls.sourceType

/-- The body of the `try:` block of `ArtifactRepoSource._can_resolve` (lines 130-134):
for the local source type, `is_local_uri(str(raw_source), is_tracking_or_registry_uri=False)`;
otherwise `urlparse(str(raw_source)).scheme == scheme`. Either call can raise, so the
result lives in the exception monad. -/
def canResolveTry (cls : ArtifactRepoSourceClass) (raw : PyObj) : Except String Bool :=
  if _get_source_type cls == "local" then
    is_local_uri (pyStr raw) false
  else do
    let p ← pyUrlparse (pyStr raw)
    return (p.scheme == cls.scheme)

/-- `ArtifactRepoSource._can_resolve(raw_source)` (lines 121-136) in the exception
monad: the isinstance gate returns `False` for non-string, non-path input when the
source type is local; then the `try:` body runs with `except Exception: return False`.
Both normal branches produce `Except.ok`; the theorem
`can_resolve_is_total_never_raises` proves no error escapes. -/
def pyCanResolve (cls : ArtifactRepoSourceClass) (raw : PyObj) : Except String Bool :=
  if !raw.isStr && (!raw.isPath && (_get_source_type cls == "local")) then
    Except.ok false
  else
    match canResolveTry cls raw with
    | .ok b => Except.ok b
    | .error _ => Except.ok false

/-- The boolean value `ArtifactRepoSource._can_resolve(raw_source)` returns. -/
def _can_resolve (cls : ArtifactRepoSourceClass) (raw : PyObj) : Bool :=
  match pyCanResolve cls raw with
  | .ok b => b
  | .error _ => false

/-- A `Resolved Source`: an instance of a generated class, holding the bound `uri`
(line 90-91: `self._uri = uri`; the data model fixes `uri` as a string). -/
structure ArtifactRepoSourceInst where
  uri : String
  deriving DecidableEq, Repr

/-- `ArtifactRepoSource._resolve(raw_source)`: `cls(str(raw_source))`. -/
def _resolve (raw : PyObj) : ArtifactRepoSourceInst := ⟨pyStr raw⟩

/-- A Python dict as this code consumes it: keys to values, where a value is either a
string or `None` (per the serialized form of the spec, the only recognized key `uri`
holds a string; `none` models both an explicit `None` value and, through `dictGet`, an
absent key, exactly as Python `dict.get`). -/
abbrev PyDict := List (String × Option String)

/-- Python `source_dict.get(key)`: the value at the first binding of `key`, or `None`
when the key is absent. -/
def dictGet (d : PyDict) (key : String) : Option String :=
  match d.find? (fun kv => kv.1 == key) with
  | some kv => kv.2
  | none => none

/-- `ArtifactRepoSource._to_dict()` (lines 142-148): `{"uri": self.uri}`. -/
def _to_dict (inst : ArtifactRepoSourceInst) : PyDict := [("uri", some inst.uri)]

/-- The structured error `MlflowException(message, error_code)`. -/
structure MlflowException where
  message : String
  error_code : String
  deriving DecidableEq, Repr

/-- The `INVALID_PARAMETER_VALUE` error code from `mlflow.protos.databricks_pb2`. -/
def INVALID_PARAMETER_VALUE : String := "INVALID_PARAMETER_VALUE"

/-- `ArtifactRepoSource._from_dict(source_dict)` (lines 150-159): take
`source_dict.get("uri")`; if the value is `None` (the key being absent or explicitly
mapped to `None`), raise `MlflowException` with the missing-key message and
`INVALID_PARAMETER_VALUE`; otherwise construct an instance around the value. -/
def _from_dict (dataset_source_name : String) (source_dict : PyDict) :
    Except MlflowException ArtifactRepoSourceInst :=
  match dictGet source_dict "uri" with
  | none =>
    Except.error
      ⟨"Failed to parse " ++ dataset_source_name ++ ". Missing expected key: \"uri\"",
        INVALID_PARAMETER_VALUE⟩
  | some uri => Except.ok ⟨uri⟩

/-- An entry of the backend directory returned by
`get_registered_artifact_repositories()` (an external collaborator): an opaque handle.
The only operation the engine performs on it is reading `artifact_repo.__name__`
(line 38), an attribute access on an arbitrary registered object that can raise — for
example, `functools.partial` instances carry no `__name__`, so the access raises
`AttributeError`. We therefore model the attribute read as `Except`-valued. -/
structure ArtifactRepo where
  name : Except String String
  deriving Repr

/-- Whether reading `__name__` on the handle succeeds. -/
def nameDefined (r : ArtifactRepo) : Bool :=
  match r.name with
  | .ok _ => true
  | .error _ => false

/-- The fixed `artifact_schemes_to_exclude` list (lines 19-32). -/
def artifact_schemes_to_exclude : List String :=
  ["http", "https", "runs", "models", "mlflow-artifacts", "dbfs"]

/-- The state owned by the dataset-source registry plus the warning channel: the
resolution table in registration order, and the warnings emitted so far. Modelled from
the spec for the parts outside the source file: the spec describes the resolution table
(`mlflow.data.dataset_source_registry`) as an ordered collection into which
`register_dataset_source` inserts descriptors in registration order. -/
structure RegState where
  table : List ArtifactRepoSourceClass
  warnings : List String
  deriving DecidableEq, Repr

/-- The warning text of line 66:
`f"Failed to register a dataset source for URIs with scheme '{scheme}': {e}"`. -/
def warnMsg (scheme e : String) : String :=
  "Failed to register a dataset source for URIs with scheme '" ++ scheme ++ "': " ++ e

/-- The body of the `try:` block of `register_artifact_dataset_sources` after the
claimed-scheme insertion (lines 60-68): build the descriptor, then insert it into the
resolution table; on an exception from either call, append the warning instead.
`buildErr scheme name` and `insertErr cls` are oracles giving the exception message a
call to `_create_dataset_source_for_artifact_repo` respectively `register_dataset_source`
raises (`none` = the call succeeds). The build in the embedding is itself pure, so the
oracle stands for exceptions Python could raise inside it; `register_dataset_source` is
external and modelled from the spec as an atomic append that either succeeds or raises
without touching the table. -/
def stepEntry (buildErr : String → String → Option String)
    (insertErr : ArtifactRepoSourceClass → Option String)
    (scheme nm : String) (st : RegState) : RegState :=
  let dataset_source_name := datasetSourceName scheme nm
  match buildErr scheme dataset_source_name with
  | some e => { st with warnings := st.warnings ++ [warnMsg scheme e] }
  | none =>
    let cls := _create_dataset_source_for_artifact_repo scheme dataset_source_name
    match insertErr cls with
    | some e => { st with warnings := st.warnings ++ [warnMsg scheme e] }
    | none => { st with table := st.table ++ [cls] }

/-- The loop of `register_artifact_dataset_sources` (lines 34-68) over the remaining
backend-directory entries, carrying the `registered_source_schemes` set of the current
call. Per entry: skip when the scheme is excluded or already claimed (line 35); read
`artifact_repo.__name__` and derive the type name (lines 38-56) — this happens OUTSIDE
the `try:` block, so a failure here propagates as `Except.error`; otherwise claim the
scheme and run the protected build-and-insert step, then continue. -/
def registerLoop (buildErr : String → String → Option String)
    (insertErr : ArtifactRepoSourceClass → Option String) :
    List (String × ArtifactRepo) → List String → RegState → Except String RegState
  | [], _, st => Except.ok st
  | (scheme, repo) :: rest, claimed, st =>
    if scheme ∈ artifact_schemes_to_exclude ∨ scheme ∈ claimed then
      registerLoop buildErr insertErr rest claimed st
    else
      match repo.name with
      | .error e => Except.error e
      | .ok nm =>
        registerLoop buildErr insertErr rest (scheme :: claimed)
          (stepEntry buildErr insertErr scheme nm st)

/-- `register_artifact_dataset_sources()` (lines 15-68), parameterized by the backend
directory (the mapping `get_registered_artifact_repositories()` returns, in its
iteration order), the two exception oracles, and the initial registry state. The
`registered_source_schemes` set starts empty at every call (line 18). -/
def register_artifact_dataset_sources (dir : List (String × ArtifactRepo))
    (buildErr : String → String → Option String)
    (insertErr : ArtifactRepoSourceClass → Option String)
    (st : RegState) : Except String RegState :=
  registerLoop buildErr insertErr dir [] st

/-- The build oracle that never raises. -/
def noBuildFail : String → String → Option String := fun _ _ => none

/-- The insert oracle that never raises. -/
def noInsertFail : ArtifactRepoSourceClass → Option String := fun _ => none

/-- A well-behaved S3 backend handle. -/
def s3Repo : ArtifactRepo := ⟨Except.ok "S3ArtifactRepository"⟩

/-- The descriptor the engine generates for the S3 backend. -/
def s3Desc : ArtifactRepoSourceClass :=
  ⟨"s3", "s3", "S3ArtifactDatasetSource", remoteDocstring "s3"⟩

example : pyUrlparse "s3://bucket/key" = .ok ⟨"s3", "bucket"⟩ := rfl
example : pyUrlparse "/tmp/data" = .ok ⟨"", ""⟩ := rfl
example : pyUrlparse "runs:/abc/data" = .ok ⟨"runs", ""⟩ := rfl
example : pyUrlparse "s3://[::1" = .error "Invalid IPv6 URL" := rfl
example : pyUrlparse "S3://Bucket/key" = .ok ⟨"s3", "Bucket"⟩ := rfl
example : catchFalse (is_local_uri "/tmp/data" false) = true := rfl
example : catchFalse (is_local_uri "https://example.com/x" false) = false := rfl
example : datasetSourceName "s3" "S3ArtifactRepository" = "S3ArtifactDatasetSource" := by decide
example : datasetSourceName "my-scheme" "dbfs_artifact_repo_factory"
    = "MySchemeArtifactDatasetSource" := by decide
example : datasetSourceName "s3" "ArtifactRepositoryX" = "ArtifactDatasetSourceX" := by decide
example :
    register_artifact_dataset_sources [("s3", s3Repo)] noBuildFail noInsertFail ⟨[], []⟩
      = Except.ok ⟨[s3Desc], []⟩ := rfl
example :
    register_artifact_dataset_sources [("badrepo", ⟨Except.error "AttributeError"⟩), ("s3", s3Repo)]
      noBuildFail noInsertFail ⟨[], []⟩ = Except.error "AttributeError" := rfl
example :
    register_artifact_dataset_sources [("http", ⟨Except.error "AttributeError"⟩), ("s3", s3Repo)]
      noBuildFail noInsertFail ⟨[], []⟩ = Except.ok ⟨[s3Desc], []⟩ := rfl

lemma create_scheme_eq (scheme nm : String) :
    (_create_dataset_source_for_artifact_repo scheme nm).scheme = scheme := by
  unfold _create_dataset_source_for_artifact_repo
  split <;> rfl

lemma create_name_eq (scheme nm : String) :
    (_create_dataset_source_for_artifact_repo scheme nm).name = nm := by
  unfold _create_dataset_source_for_artifact_repo
  split <;> rfl

lemma dictGet_skip (key : String) :
    ∀ (pre rest : PyDict), (∀ kv ∈ pre, (kv.1 == key) = false) →
      dictGet (pre ++ rest) key = dictGet rest key := by
  intro pre rest h
  induction pre with
  | nil => rfl
  | cons kv pre ih =>
    have hkv : (kv.1 == key) = false := h kv (List.mem_cons_self kv pre)
    have htail : ∀ kv2 ∈ pre, (kv2.1 == key) = false :=
      fun kv2 hm => h kv2 (List.mem_cons_of_mem kv hm)
    simpa [dictGet, List.find?, hkv] using ih htail

/-- Characterization of a successful `registerLoop` run: the table grows by a list of
descriptors, the warnings grow by a list of messages, every added descriptor has a
non-excluded scheme that was not claimed at entry and passed both the build and the
insert oracle, and the added schemes are pairwise distinct. -/
lemma registerLoop_characterization (buildErr : String → String → Option String)
    (insertErr : ArtifactRepoSourceClass → Option String) :
    ∀ (dir : List (String × ArtifactRepo)) (claimed : List String) (st st2 : RegState),
      registerLoop buildErr insertErr dir claimed st = Except.ok st2 →
      ∃ added warns,
        st2.table = st.table ++ added ∧
        st2.warnings = st.warnings ++ warns ∧
        (∀ cls ∈ added,
          cls.scheme ∉ artifact_schemes_to_exclude ∧ cls.scheme ∉ claimed ∧
          buildErr cls.scheme cls.name = none ∧ insertErr cls = none) ∧
        (added.map (fun c => c.scheme)).Nodup := by
  intro dir
  induction dir with
  | nil =>
    intro claimed st st2 h
    rw [registerLoop] at h
    cases h
    exact ⟨[], [], by simp, by simp, by simp, by simp⟩
  | cons p rest ih =>
    obtain ⟨scheme, repo⟩ := p
    intro claimed st st2 h
    rw [registerLoop] at h
    by_cases hskip : scheme ∈ artifact_schemes_to_exclude ∨ scheme ∈ claimed
    · rw [if_pos hskip] at h
      exact ih claimed st st2 h
    · rw [if_neg hskip] at h
      cases hname : repo.name with
      | error e => rw [hname] at h; cases h
      | ok nm =>
        rw [hname] at h
        obtain ⟨added1, warns1, htab, hwarn, hprops, hnodup⟩ :=
          ih (scheme :: claimed) (stepEntry buildErr insertErr scheme nm st) st2 h
        have hweaken : ∀ cls ∈ added1,
            cls.scheme ∉ artifact_schemes_to_exclude ∧ cls.scheme ∉ claimed ∧
            buildErr cls.scheme cls.name = none ∧ insertErr cls = none := by
          intro cls hm
          obtain ⟨h1, h2, h3, h4⟩ := hprops cls hm
          exact ⟨h1, fun hc => h2 (List.mem_cons_of_mem _ hc), h3, h4⟩
        cases hb : buildErr scheme (datasetSourceName scheme nm) with
        | some e =>
          simp only [stepEntry, hb] at htab hwarn
          exact ⟨added1, warnMsg scheme e :: warns1,
            htab, by simpa using hwarn, hweaken, hnodup⟩
        | none =>
          cases hi : insertErr
              (_create_dataset_source_for_artifact_repo scheme
                (datasetSourceName scheme nm)) with
          | some e =>
            simp only [stepEntry, hb, hi] at htab hwarn
            exact ⟨added1, warnMsg scheme e :: warns1,
              htab, by simpa using hwarn, hweaken, hnodup⟩
          | none =>
            simp only [stepEntry, hb, hi] at htab hwarn
            refine ⟨_create_dataset_source_for_artifact_repo scheme
              (datasetSourceName scheme nm) :: added1, warns1,
              by simpa using htab, hwarn, ?_, ?_⟩
            · intro cls hm
              rcases List.mem_cons.mp hm with heq | hmem
              · subst heq
                rw [create_scheme_eq, create_name_eq]
                exact ⟨fun hc => hskip (Or.inl hc), fun hc => hskip (Or.inr hc), hb, hi⟩
              · exact hweaken cls hmem
            · rw [List.map_cons, List.nodup_cons]
              refine ⟨?_, hnodup⟩
              intro hmem
              rcases List.mem_map.mp hmem with ⟨cls, hcls, hs⟩
              have := (hprops cls hcls).2.1
              rw [create_scheme_eq] at hs
              exact this (hs ▸ List.mem_cons_self scheme claimed)

lemma replTokAux_cons_of_not_prefix (c : Char) (cs : List Char)
    (h : arTok.isPrefixOf (c :: cs) = false) :
    replTokAux (c :: cs) 0 = c :: replTokAux cs 0 := by
  simp [replTokAux, h]

/-- Replacing in `s ++ "ArtifactRepository"` when the token occurs nowhere before the
final position yields `s ++ "ArtifactDatasetSource"`. -/
lemma replTok_append_tok :
    ∀ s : List Char,
      (∀ i, i < s.length → arTok.isPrefixOf ((s ++ arTok).drop i) = false) →
      replTok (s ++ arTok) = s ++ adsTok := by
  intro s
  induction s with
  | nil => intro _; decide
  | cons c s ih =>
    intro h
    have h0 : arTok.isPrefixOf (c :: (s ++ arTok)) = false := by
      simpa using h 0 (Nat.succ_pos _)
    have htail : ∀ i, i < s.length →
        arTok.isPrefixOf ((s ++ arTok).drop i) = false := by
      intro i hi
      simpa [List.drop_succ_cons] using h (i + 1) (Nat.succ_lt_succ hi)
    calc replTok ((c :: s) ++ arTok) = c :: replTok (s ++ arTok) := by
          simpa [replTok] using replTokAux_cons_of_not_prefix c (s ++ arTok) h0
      _ = c :: (s ++ adsTok) := by rw [ih htail]
      _ = (c :: s) ++ adsTok := rfl

lemma tokOccursIn_append_tok : ∀ s : List Char, tokOccursIn (s ++ arTok) = true := by
  intro s
  induction s with
  | nil => decide
  | cons c s ih => simp [tokOccursIn, ih]

/-- When every handle in the remaining directory has a readable `__name__`, the loop
never propagates an exception. -/
lemma registerLoop_ok_of_namesDefined (buildErr : String → String → Option String)
    (insertErr : ArtifactRepoSourceClass → Option String) :
    ∀ (dir : List (String × ArtifactRepo)) (claimed : List String) (st : RegState),
      (∀ p ∈ dir, nameDefined p.2 = true) →
      ∃ st2, registerLoop buildErr insertErr dir claimed st = Except.ok st2 := by
  intro dir
  induction dir with
  | nil => intro claimed st _; exact ⟨st, rfl⟩
  | cons p rest ih =>
    obtain ⟨scheme, repo⟩ := p
    intro claimed st hnames
    have htail : ∀ p ∈ rest, nameDefined p.2 = true :=
      fun p hm => hnames p (List.mem_cons_of_mem _ hm)
    rw [registerLoop]
    by_cases hskip : scheme ∈ artifact_schemes_to_exclude ∨ scheme ∈ claimed
    · rw [if_pos hskip]
      exact ih claimed st htail
    · rw [if_neg hskip]
      have hhead := hnames (scheme, repo) (List.mem_cons_self _ _)
      cases hname : repo.name with
      | error e => rw [nameDefined, hname] at hhead; cases hhead
      | ok nm =>
        exact ih (scheme :: claimed)
          (stepEntry buildErr insertErr scheme nm st) htail

/-- Claim C4 (confirmed): serialization round-trips with deserialization. For
`d = {"uri": s}`, `_to_dict(_from_dict(d)) = d`; extra keys beyond `"uri"` are ignored
by `_from_dict`; and for every instance `r`, `_from_dict(_to_dict(r))` yields an
instance equal to `r` (in particular with the same `uri`). -/
theorem serialization_round_trip (dsn s : String) (pre post : PyDict)
    (hpre : ∀ kv ∈ pre, (kv.1 == "uri") = false) :
    Except.map _to_dict (_from_dict dsn [("uri", some s)]) = Except.ok [("uri", some s)] ∧
    _from_dict dsn (pre ++ ("uri", some s) :: post) = Except.ok ⟨s⟩ ∧
    (∀ r : ArtifactRepoSourceInst, _from_dict dsn (_to_dict r) = Except.ok r) := by
  refine ⟨rfl, ?_, ?_⟩
  · have hget : dictGet (pre ++ ("uri", some s) :: post) "uri" = some s := by
      rw [dictGet_skip "uri" pre (("uri", some s) :: post) hpre]; rfl
    simp [_from_dict, hget]
  · intro r; cases r; rfl

theorem serialization_round_trip_witness :
    Except.map _to_dict (_from_dict "S3ArtifactDatasetSource" [("uri", some "s3://b/k")])
      = Except.ok [("uri", some "s3://b/k")] ∧
    _from_dict "S3ArtifactDatasetSource"
        ([("extra", some "1")] ++ ("uri", some "s3://b/k") :: [("other", none)])
      = Except.ok ⟨"s3://b/k"⟩ ∧
    _from_dict "S3ArtifactDatasetSource" (_to_dict ⟨"s3://b/k"⟩)
      = Except.ok ⟨"s3://b/k"⟩ := by
  obtain ⟨h1, h2, h3⟩ := serialization_round_trip "S3ArtifactDatasetSource" "s3://b/k"
    [("extra", some "1")] [("other", none)] (by decide)
  exact ⟨h1, h2, h3 ⟨"s3://b/k"⟩⟩

/-- Claim C5 (confirmed): `_from_dict({})` raises a structured `MlflowException` whose
error code is `INVALID_PARAMETER_VALUE` and whose message names the descriptor's type
name and the missing key `"uri"`; the error is returned to the caller, not swallowed. -/
theorem from_dict_missing_key_error (dsn : String) :
    _from_dict dsn ([] : PyDict)
      = Except.error
          ⟨"Failed to parse " ++ dsn ++ ". Missing expected key: \"uri\"",
            INVALID_PARAMETER_VALUE⟩ := rfl

/-- Claim C10 (confirmed): `_from_dict({"uri": None})` raises exactly the same
structured missing-expected-key error as `_from_dict({})`, because the code tests
whether `source_dict.get("uri")` is `None`, which conflates an absent key with an
explicit `None` value; no instance with a `None` uri is produced. -/
theorem from_dict_explicit_none_uri (dsn : String) :
    _from_dict dsn [("uri", none)] = _from_dict dsn [] ∧
    _from_dict dsn [("uri", none)]
      = Except.error
          ⟨"Failed to parse " ++ dsn ++ ". Missing expected key: \"uri\"",
            INVALID_PARAMETER_VALUE⟩ :=
  ⟨rfl, rfl⟩

/-- Claim C7 counterexample: the code tests substring containment of
`"ArtifactRepository"`, not an ends-with condition. For the implementation name
`"ArtifactRepositoryX"` (which contains the token but does not end with it) and scheme
`"s3"`, the claim predicts the camelcase path, `"S3ArtifactDatasetSource"`; the code
instead replaces the token and produces `"ArtifactDatasetSourceX"`. -/
theorem name_derivation_not_suffix_counterexample :
    datasetSourceName "s3" "ArtifactRepositoryX" = "ArtifactDatasetSourceX" ∧
    "ArtifactDatasetSourceX" ≠ camelcaseScheme "s3" ++ "ArtifactDatasetSource" ∧
    camelcaseScheme "s3" ++ "ArtifactDatasetSource" = "S3ArtifactDatasetSource" :=
  ⟨by decide, by decide, by decide⟩

/-- Claim C7 (corrected): the name deriver is a pure function of the scheme and the
implementation name, but the branch condition is containment, not an ends-with test:
when the name does not contain `"ArtifactRepository"`, the camelcase path applies
(split on hyphen/underscore, Python-capitalize each segment, concatenate, append
`"ArtifactDatasetSource"`); when the name is `stem ++ "ArtifactRepository"` with no
other occurrence of the token, every occurrence being replaced coincides with
strip-and-append, preserving the stem's capitalization. -/
theorem name_derivation_replaces_token :
    (∀ scheme nm : String, tokOccursIn nm.toList = false →
      datasetSourceName scheme nm = camelcaseScheme scheme ++ "ArtifactDatasetSource") ∧
    (∀ scheme stem : String,
      (∀ i, i < stem.toList.length →
        arTok.isPrefixOf ((stem.toList ++ arTok).drop i) = false) →
      datasetSourceName scheme (stem ++ "ArtifactRepository")
        = stem ++ "ArtifactDatasetSource") ∧
    datasetSourceName "s3" "S3ArtifactRepository" = "S3ArtifactDatasetSource" ∧
    datasetSourceName "my-scheme" "dbfs_artifact_repo_factory"
      = "MySchemeArtifactDatasetSource" := by
  refine ⟨?_, ?_, by decide, by decide⟩
  · intro scheme nm h
    have hcond : ¬ (tokOccursIn nm.toList = true) := by
      rw [h]; exact Bool.false_ne_true
    rw [datasetSourceName, if_neg hcond]
  · intro scheme stem h
    have htl : (stem ++ "ArtifactRepository").toList = stem.toList ++ arTok := rfl
    have hocc : tokOccursIn (stem ++ "ArtifactRepository").toList = true := by
      rw [htl]; exact tokOccursIn_append_tok stem.toList
    rw [datasetSourceName, if_pos hocc, htl, replTok_append_tok stem.toList h]
    rfl

theorem name_derivation_replaces_token_witness :
    datasetSourceName "gs" "dbfs_artifact_repo_factory"
      = camelcaseScheme "gs" ++ "ArtifactDatasetSource" ∧
    datasetSourceName "x" ("Local" ++ "ArtifactRepository")
      = "Local" ++ "ArtifactDatasetSource" :=
  ⟨name_derivation_replaces_token.1 "gs" "dbfs_artifact_repo_factory" (by decide),
   name_derivation_replaces_token.2.1 "x" "Local" (by decide)⟩

lemma pyCanResolve_ok (cls : ArtifactRepoSourceClass) (raw : PyObj) :
    ∃ b, pyCanResolve cls raw = Except.ok b := by
  rw [pyCanResolve]
  by_cases hgate :
      (!raw.isStr && (!raw.isPath && (_get_source_type cls == "local"))) = true
  · rw [if_pos hgate]; exact ⟨false, rfl⟩
  · rw [if_neg hgate]
    cases h : canResolveTry cls raw with
    | ok b => exact ⟨b, rfl⟩
    | error e => exact ⟨false, rfl⟩

/-- Claim C9 (confirmed): `_can_resolve` is total on every generated descriptor and
every input: the method in the exception monad always returns `Except.ok` of the boolean
`_can_resolve` computes (it never raises), and whenever the `try:` body raises
internally (malformed input, parse failure) the caught result is `false`. -/
theorem can_resolve_is_total_never_raises (cls : ArtifactRepoSourceClass) (raw : PyObj) :
    pyCanResolve cls raw = Except.ok (_can_resolve cls raw) ∧
    (∀ e, canResolveTry cls raw = Except.error e → _can_resolve cls raw = false) := by
  obtain ⟨b, hb⟩ := pyCanResolve_ok cls raw
  constructor
  · rw [_can_resolve, hb]
  · intro e he
    have hbf : b = false := by
      rw [pyCanResolve] at hb
      by_cases hgate :
          (!raw.isStr && (!raw.isPath && (_get_source_type cls == "local"))) = true
      · rw [if_pos hgate] at hb
        exact (Except.ok.inj hb).symm
      · rw [if_neg hgate, he] at hb
        exact (Except.ok.inj hb).symm
    rw [_can_resolve, hb, hbf]

theorem can_resolve_is_total_never_raises_witness :
    _can_resolve (_create_dataset_source_for_artifact_repo "s3" "S3ArtifactDatasetSource")
      (PyObj.pstr "s3://[::1") = false :=
  (can_resolve_is_total_never_raises _ _).2 "Invalid IPv6 URL" rfl

/-- Claim C2 counterexample: the claim quantifies over every scheme outside
`{"", "file"}`, but for the scheme `"local"` the generated descriptor's `source_type`
equals `"local"`, so `_can_resolve` runs the local-path test instead of comparing the
parsed URI scheme: `_can_resolve("/tmp/data")` is `true` although parsing
`"/tmp/data"` yields the scheme `""`, not `"local"`. -/
theorem can_resolve_scheme_local_counterexample :
    (("local" : String) ≠ "" ∧ ("local" : String) ≠ "file") ∧
    _can_resolve (_create_dataset_source_for_artifact_repo "local" "LocalArtifactDatasetSource")
      (PyObj.pstr "/tmp/data") = true ∧
    pyUrlparse (pyStr (PyObj.pstr "/tmp/data")) = Except.ok ⟨"", ""⟩ ∧
    ("" : String) ≠ "local" :=
  ⟨⟨by decide, by decide⟩, rfl, rfl, by decide⟩

/-- Claim C2 (corrected): for every descriptor generated for a scheme outside
`{"", "file", "local"}` — the scheme `"local"`, although outside `{"", "file"}`, makes
`source_type` equal `"local"` and takes the local test instead — `_can_resolve` accepts
any input, converts it to a string, and returns `true` exactly when parsing it as a URI
succeeds and yields a scheme component equal (case-sensitively) to the descriptor's
scheme. -/
theorem can_resolve_nonlocal_matches_parsed_scheme (scheme dsn : String)
    (h1 : scheme ≠ "") (h2 : scheme ≠ "file") (h3 : scheme ≠ "local") (raw : PyObj) :
    _can_resolve (_create_dataset_source_for_artifact_repo scheme dsn) raw
      = catchFalse (Except.map (fun p => p.scheme == scheme) (pyUrlparse (pyStr raw))) := by
  have hcls : _create_dataset_source_for_artifact_repo scheme dsn
      = ⟨scheme, scheme, dsn, remoteDocstring scheme⟩ := by
    rw [_create_dataset_source_for_artifact_repo, if_neg]
    simp [h1, h2]
  have hloc : (_get_source_type ⟨scheme, scheme, dsn, remoteDocstring scheme⟩
      == "local") = false := by
    simp [_get_source_type, h3]
  rw [hcls, _can_resolve, pyCanResolve, canResolveTry, hloc]
  cases hp : pyUrlparse (pyStr raw) with
  | ok p => simp [hp, catchFalse, Except.map]
  | error e => simp [hp, catchFalse, Except.map]

theorem can_resolve_nonlocal_matches_parsed_scheme_witness :
    _can_resolve (_create_dataset_source_for_artifact_repo "s3" "S3ArtifactDatasetSource")
      (PyObj.pstr "s3://bucket/key") = true ∧
    _can_resolve (_create_dataset_source_for_artifact_repo "s3" "S3ArtifactDatasetSource")
      (PyObj.pstr "https://example.com/x") = false :=
  ⟨(can_resolve_nonlocal_matches_parsed_scheme "s3" "S3ArtifactDatasetSource"
      (by decide) (by decide) (by decide) (PyObj.pstr "s3://bucket/key")).trans rfl,
   (can_resolve_nonlocal_matches_parsed_scheme "s3" "S3ArtifactDatasetSource"
      (by decide) (by decide) (by decide) (PyObj.pstr "https://example.com/x")).trans rfl⟩

/-- Claim C3 (confirmed; `is_local_uri` is modelled from the spec because
`mlflow.utils.uri` is not under the repository source): for the local descriptor
(scheme `""` or `"file"`), `_can_resolve` returns `false` for every input that is
neither a string nor a path, and for string/path inputs returns exactly the result of
the local-URI test (with parse failures caught as `false`). -/
theorem can_resolve_local_accepts_local_uris (scheme dsn : String)
    (hs : scheme = "" ∨ scheme = "file") (raw : PyObj) :
    _can_resolve (_create_dataset_source_for_artifact_repo scheme dsn) raw
      = ((raw.isStr || raw.isPath) && catchFalse (is_local_uri (pyStr raw) false)) := by
  have hcls : _create_dataset_source_for_artifact_repo scheme dsn
      = ⟨scheme, "local", dsn, localDocstring⟩ := by
    rcases hs with rfl | rfl <;> rfl
  have hloc : (_get_source_type ⟨scheme, "local", dsn, localDocstring⟩
      == "local") = true := rfl
  rw [hcls, _can_resolve, pyCanResolve, canResolveTry, hloc]
  cases raw with
  | pstr s =>
    cases h : is_local_uri s false with
    | ok b => simp [PyObj.isStr, PyObj.isPath, pyStr, h, catchFalse]
    | error e => simp [PyObj.isStr, PyObj.isPath, pyStr, h, catchFalse]
  | ppath s =>
    cases h : is_local_uri s false with
    | ok b => simp [PyObj.isStr, PyObj.isPath, pyStr, h, catchFalse]
    | error e => simp [PyObj.isStr, PyObj.isPath, pyStr, h, catchFalse]
  | pnone => simp [PyObj.isStr, PyObj.isPath, catchFalse]
  | pint n => simp [PyObj.isStr, PyObj.isPath, catchFalse]

theorem can_resolve_local_accepts_local_uris_witness :
    _can_resolve (_create_dataset_source_for_artifact_repo "" "LocalArtifactDatasetSource")
      (PyObj.pstr "/tmp/data") = true ∧
    _can_resolve (_create_dataset_source_for_artifact_repo "file" "LocalArtifactDatasetSource")
      (PyObj.pstr "https://example.com/x") = false ∧
    _can_resolve (_create_dataset_source_for_artifact_repo "" "LocalArtifactDatasetSource")
      (PyObj.pstr "runs:/abc/data") = false ∧
    _can_resolve (_create_dataset_source_for_artifact_repo "" "LocalArtifactDatasetSource")
      PyObj.pnone = false :=
  ⟨(can_resolve_local_accepts_local_uris "" "LocalArtifactDatasetSource"
      (Or.inl rfl) (PyObj.pstr "/tmp/data")).trans rfl,
   (can_resolve_local_accepts_local_uris "file" "LocalArtifactDatasetSource"
      (Or.inr rfl) (PyObj.pstr "https://example.com/x")).trans rfl,
   (can_resolve_local_accepts_local_uris "" "LocalArtifactDatasetSource"
      (Or.inl rfl) (PyObj.pstr "runs:/abc/data")).trans rfl,
   (can_resolve_local_accepts_local_uris "" "LocalArtifactDatasetSource"
      (Or.inl rfl) PyObj.pnone).trans rfl⟩

/-- Claim C1 counterexample: type-name derivation reads `artifact_repo.__name__`
(line 38) OUTSIDE the `try:` block that starts at line 58, so a backend handle whose
`__name__` access raises (e.g. a `functools.partial` object) makes
`register_artifact_dataset_sources` propagate the exception: no warning is emitted and
the well-formed `s3` backend listed after it is never registered — run alone, the same
`s3` backend registers fine. -/
theorem register_derivation_failure_propagates :
    register_artifact_dataset_sources
        [("badrepo", ⟨Except.error "AttributeError"⟩), ("s3", s3Repo)]
        noBuildFail noInsertFail ⟨[], []⟩
      = Except.error "AttributeError" ∧
    register_artifact_dataset_sources [("s3", s3Repo)] noBuildFail noInsertFail ⟨[], []⟩
      = Except.ok ⟨[s3Desc], []⟩ :=
  ⟨rfl, rfl⟩

/-- Claim C1 (corrected): failure isolation holds for descriptor build and resolution
table insertion, which sit inside the `try:` block — such a failure is not propagated:
the warning naming the scheme and the failure reason is appended, the scheme stays
claimed, the table is untouched, and the loop continues with the remaining backends;
moreover every descriptor a successful run adds passed both the build and the insert
step, so no partial descriptor of a failed scheme is ever in the table. Type-name
derivation, however, runs BEFORE the `try:` block, so the claim's "derivation" case is
wrong: a derivation failure propagates (see the counterexample). -/
theorem register_isolates_build_insert_failures :
    (∀ (dir : List (String × ArtifactRepo)) (buildErr : String → String → Option String)
        (insertErr : ArtifactRepoSourceClass → Option String) (st : RegState),
      (∀ p ∈ dir, nameDefined p.2 = true) →
      ∃ st2 added,
        register_artifact_dataset_sources dir buildErr insertErr st = Except.ok st2 ∧
        st2.table = st.table ++ added ∧
        ∀ cls ∈ added, buildErr cls.scheme cls.name = none ∧ insertErr cls = none) ∧
    (∀ (buildErr : String → String → Option String)
        (insertErr : ArtifactRepoSourceClass → Option String)
        (scheme : String) (repo : ArtifactRepo) (nm e : String)
        (rest : List (String × ArtifactRepo)) (claimed : List String) (st : RegState),
      repo.name = Except.ok nm →
      scheme ∉ artifact_schemes_to_exclude →
      scheme ∉ claimed →
      (buildErr scheme (datasetSourceName scheme nm) = some e ∨
        (buildErr scheme (datasetSourceName scheme nm) = none ∧
          insertErr (_create_dataset_source_for_artifact_repo scheme
            (datasetSourceName scheme nm)) = some e)) →
      registerLoop buildErr insertErr ((scheme, repo) :: rest) claimed st
        = registerLoop buildErr insertErr rest (scheme :: claimed)
            { st with warnings := st.warnings ++ [warnMsg scheme e] }) := by
  constructor
  · intro dir buildErr insertErr st hnames
    obtain ⟨st2, h⟩ := registerLoop_ok_of_namesDefined buildErr insertErr dir [] st hnames
    obtain ⟨added, warns, htab, _, hprops, _⟩ :=
      registerLoop_characterization buildErr insertErr dir [] st st2 h
    exact ⟨st2, added, h, htab,
      fun cls hm => ⟨(hprops cls hm).2.2.1, (hprops cls hm).2.2.2⟩⟩
  · intro buildErr insertErr scheme repo nm e rest claimed st hname hexc hcl hfail
    rw [registerLoop, if_neg (fun hor => hor.elim hexc hcl), hname]
    rcases hfail with hb | ⟨hb, hi⟩
    · simp [stepEntry, hb]
    · simp [stepEntry, hb, hi]

theorem register_isolates_build_insert_failures_witness :
    (∃ st2 added,
      register_artifact_dataset_sources [("s3", s3Repo)] noBuildFail noInsertFail ⟨[], []⟩
        = Except.ok st2 ∧
      st2.table = (⟨[], []⟩ : RegState).table ++ added ∧
      ∀ cls ∈ added, noBuildFail cls.scheme cls.name = none ∧ noInsertFail cls = none) ∧
    registerLoop (fun _ _ => some "boom") noInsertFail [("s3", s3Repo)] [] ⟨[], []⟩
      = registerLoop (fun _ _ => some "boom") noInsertFail [] ["s3"]
          ⟨[], [warnMsg "s3" "boom"]⟩ :=
  ⟨register_isolates_build_insert_failures.1 [("s3", s3Repo)] noBuildFail noInsertFail
      ⟨[], []⟩ (by decide),
   register_isolates_build_insert_failures.2 (fun _ _ => some "boom") noInsertFail
      "s3" s3Repo "S3ArtifactRepository" "boom" [] [] ⟨[], []⟩ rfl (by decide) (by decide)
      (Or.inl rfl)⟩

/-- Claim C6 (confirmed): no descriptor this engine registers carries a scheme from the
fixed exclusion list, and an excluded scheme is skipped by the `continue` of line 35-36
before `__name__` is read, the descriptor is built, or the insertion is attempted — the
skip equation holds for an arbitrary handle, including one whose `__name__` access
would raise. -/
theorem register_skips_excluded_schemes :
    (∀ (dir : List (String × ArtifactRepo)) (buildErr : String → String → Option String)
        (insertErr : ArtifactRepoSourceClass → Option String) (st st2 : RegState),
      register_artifact_dataset_sources dir buildErr insertErr st = Except.ok st2 →
      ∃ added, st2.table = st.table ++ added ∧
        ∀ cls ∈ added, cls.scheme ∉ artifact_schemes_to_exclude) ∧
    (∀ (buildErr : String → String → Option String)
        (insertErr : ArtifactRepoSourceClass → Option String)
        (scheme : String) (repo : ArtifactRepo)
        (rest : List (String × ArtifactRepo)) (claimed : List String) (st : RegState),
      scheme ∈ artifact_schemes_to_exclude →
      registerLoop buildErr insertErr ((scheme, repo) :: rest) claimed st
        = registerLoop buildErr insertErr rest claimed st) := by
  constructor
  · intro dir buildErr insertErr st st2 h
    obtain ⟨added, warns, htab, _, hprops, _⟩ :=
      registerLoop_characterization buildErr insertErr dir [] st st2 h
    exact ⟨added, htab, fun cls hm => (hprops cls hm).1⟩
  · intro buildErr insertErr scheme repo rest claimed st hexc
    rw [registerLoop, if_pos (Or.inl hexc)]

theorem register_skips_excluded_schemes_witness :
    (∃ added, (⟨[s3Desc], []⟩ : RegState).table = (⟨[], []⟩ : RegState).table ++ added ∧
      ∀ cls ∈ added, cls.scheme ∉ artifact_schemes_to_exclude) ∧
    registerLoop noBuildFail noInsertFail
        [("http", ⟨Except.error "AttributeError"⟩)] [] ⟨[], []⟩
      = registerLoop noBuildFail noInsertFail [] [] ⟨[], []⟩ :=
  ⟨register_skips_excluded_schemes.1
      [("http", ⟨Except.error "AttributeError"⟩), ("s3", s3Repo)]
      noBuildFail noInsertFail ⟨[], []⟩ ⟨[s3Desc], []⟩ rfl,
   register_skips_excluded_schemes.2 noBuildFail noInsertFail "http"
      ⟨Except.error "AttributeError"⟩ [] [] ⟨[], []⟩ (by decide)⟩

/-- Claim C8 counterexample: `registered_source_schemes` starts empty at every call
(line 18) and `register_artifact_dataset_sources` takes no externally supplied
already-registered set and consults none, so running it twice over the same one-entry
directory inserts the `s3` descriptor twice: the resolution table (an ordered collection
into which insertion appends, per the spec) ends with duplicate descriptors for the
scheme `"s3"`. -/
theorem register_twice_duplicates_schemes :
    register_artifact_dataset_sources [("s3", s3Repo)] noBuildFail noInsertFail ⟨[], []⟩
      = Except.ok ⟨[s3Desc], []⟩ ∧
    register_artifact_dataset_sources [("s3", s3Repo)] noBuildFail noInsertFail
        ⟨[s3Desc], []⟩
      = Except.ok ⟨[s3Desc, s3Desc], []⟩ ∧
    ¬ (([s3Desc, s3Desc].map (fun c => c.scheme)).Nodup) :=
  ⟨rfl, rfl, by decide⟩

/-- Claim C8 (corrected): within a single pass, duplicate schemes are registered at
most once — the added descriptors of one run carry pairwise-distinct schemes, and an
entry whose scheme is already in the running claimed set is skipped outright (for an
arbitrary handle, so a scheme that failed earlier in the pass is not retried either).
Across runs there is no deduplication: only the per-call claimed set is checked (see
the counterexample). -/
theorem register_within_pass_deduplicates :
    (∀ (dir : List (String × ArtifactRepo)) (buildErr : String → String → Option String)
        (insertErr : ArtifactRepoSourceClass → Option String) (st st2 : RegState),
      register_artifact_dataset_sources dir buildErr insertErr st = Except.ok st2 →
      ∃ added, st2.table = st.table ++ added ∧
        (added.map (fun c => c.scheme)).Nodup) ∧
    (∀ (buildErr : String → String → Option String)
        (insertErr : ArtifactRepoSourceClass → Option String)
        (scheme : String) (repo : ArtifactRepo)
        (rest : List (String × ArtifactRepo)) (claimed : List String) (st : RegState),
      scheme ∈ claimed →
      registerLoop buildErr insertErr ((scheme, repo) :: rest) claimed st
        = registerLoop buildErr insertErr rest claimed st) := by
  constructor
  · intro dir buildErr insertErr st st2 h
    obtain ⟨added, warns, htab, _, _, hnodup⟩ :=
      registerLoop_characterization buildErr insertErr dir [] st st2 h
    exact ⟨added, htab, hnodup⟩
  · intro buildErr insertErr scheme repo rest claimed st hcl
    rw [registerLoop, if_pos (Or.inr hcl)]

theorem register_within_pass_deduplicates_witness :
    (∃ added, (⟨[s3Desc], []⟩ : RegState).table = (⟨[], []⟩ : RegState).table ++ added ∧
      (added.map (fun c => c.scheme)).Nodup) ∧
    registerLoop noBuildFail noInsertFail
        [("s3", ⟨Except.error "AttributeError"⟩)] ["s3"] ⟨[s3Desc], []⟩
      = registerLoop noBuildFail noInsertFail [] ["s3"] ⟨[s3Desc], []⟩ :=
  ⟨register_within_pass_deduplicates.1
      [("s3", s3Repo), ("s3", ⟨Except.error "AttributeError"⟩)]
      noBuildFail noInsertFail ⟨[], []⟩ ⟨[s3Desc], []⟩ rfl,
   register_within_pass_deduplicates.2 noBuildFail noInsertFail "s3"
      ⟨Except.error "AttributeError"⟩ [] ["s3"] ⟨[s3Desc], []⟩ (by decide)⟩

theorem from_dict_missing_key_error_witness :
    _from_dict "S3ArtifactDatasetSource" ([] : PyDict)
      = Except.error
          ⟨"Failed to parse " ++ "S3ArtifactDatasetSource" ++ ". Missing expected key: \"uri\"",
            INVALID_PARAMETER_VALUE⟩ :=
  from_dict_missing_key_error "S3ArtifactDatasetSource"

theorem from_dict_explicit_none_uri_witness :
    _from_dict "S3ArtifactDatasetSource" [("uri", none)]
      = _from_dict "S3ArtifactDatasetSource" [] ∧
    _from_dict "S3ArtifactDatasetSource" [("uri", none)]
      = Except.error
          ⟨"Failed to parse " ++ "S3ArtifactDatasetSource" ++ ". Missing expected key: \"uri\"",
            INVALID_PARAMETER_VALUE⟩ :=
  from_dict_explicit_none_uri "S3ArtifactDatasetSource"
